import Mathlib

/-!
Shallow embedding of the CSV ingestion pipeline of `csv_loader.py`
(class `CSVLoader`) together with the session semantics fixed by
`database.py` (`SessionLocal = sessionmaker(autocommit=False,
autoflush=False, bind=engine)`), and proofs about the claims on the
loader's behaviour.

Cells coming out of a dataframe are modelled as `Option String`:
`none` stands for a missing value (pandas `NaN`), `some s` for the
string cell `s`.  Python exceptions are modelled with `Except`.
Behaviour of external libraries (pandas `read_csv`, the file system)
enters the model as explicit parameters; every piece of logic written
in the repository itself is translated directly from the source.

String primitives (`strip`, `split`, `replace`, `join`, `in`) are
modelled on the underlying character lists so that all definitions
evaluate by kernel reduction.
-/

/-! ## Python string primitives -/

/-- Python `str.isspace` characters relevant to `strip()`. -/
def isPySpace (c : Char) : Bool :=
  c = ' ' ∨ c = '\t' ∨ c = '\n' ∨ c = '\r' ∨ c = '\x0b' ∨ c = '\x0c'

/-- Modelled from Python `str.strip()`: removes leading and trailing
whitespace. -/
def pyStrip (s : String) : String :=
  ⟨((s.data.dropWhile isPySpace).reverse.dropWhile isPySpace).reverse⟩

/-- Helper for `pySplit`: splits a character list at every occurrence of
`sep`, accumulating the current part in reverse. -/
def pySplitAux (sep : Char) : List Char → List Char → List (List Char)
  | [], acc => [acc.reverse]
  | c :: rest, acc =>
      if c = sep then acc.reverse :: pySplitAux sep rest []
      else pySplitAux sep rest (c :: acc)

/-- Modelled from Python `str.split(sep)` for a one-character separator:
the list of parts between occurrences of `sep` (always non-empty). -/
def pySplit (sep : Char) (s : String) : List String :=
  (pySplitAux sep s.data []).map (fun l => ⟨l⟩)

/-- Modelled from Python `sep.join(parts)` for the one-character separator
`';'` used at csv_loader.py line 145. -/
def joinSemicolon (parts : List String) : String :=
  ⟨List.intercalate [';'] (parts.map String.data)⟩

/-! ## Python numeric primitives -/

/-- Value of a list of decimal digit characters, most significant first. -/
def digitsVal (l : List Char) : Nat :=
  l.foldl (fun acc c => 10 * acc + (c.toNat - '0'.toNat)) 0

/-- Modelled from Python's built-in `int(string)`: surrounding whitespace is
stripped, then an optional sign followed by one or more decimal digits is
accepted; anything else raises `ValueError` (here: `none`).  Digit-group
underscores are not modelled. -/
def pyInt (s : String) : Option Int :=
  let t := pyStrip s
  let signDigits : Int × List Char :=
    match t.data with
    | '-' :: rest => (-1, rest)
    | '+' :: rest => (1, rest)
    | l => (1, l)
  if signDigits.2 ≠ [] ∧ signDigits.2.all Char.isDigit then
    some (signDigits.1 * (digitsVal signDigits.2 : Int))
  else
    none

/-- Exact numeric value of a finite decimal literal, as a fraction
`num / den` in lowest terms with positive denominator; equality of values is
then structural equality.  Binary floating-point rounding is not modelled:
the facts proven here compare parses of identical digit sequences or with
zero, where exact-decimal equality and IEEE double equality coincide. -/
structure Dec where
  num : Int
  den : Nat
deriving DecidableEq, Repr

/-- Canonical fraction `sign * n / d` in lowest terms (`d > 0` at every
use site). -/
def mkDec (sign : Int) (n d : Nat) : Dec :=
  ⟨sign * ((n / n.gcd d : Nat) : Int), d / n.gcd d⟩

/-- The value `0.0`. -/
def decZero : Dec := ⟨0, 1⟩

/-- Modelled from Python's built-in `float(string)` on finite decimal
literals: surrounding whitespace stripped, optional sign, a mantissa made of
digits with at most one decimal point (at least one digit overall), and an
optional exponent part `e`/`E` with optional sign and at least one digit.
`inf`/`nan` spellings and digit-group underscores are not modelled; any
rejected input raises `ValueError` (here: `none`). -/
def pyFloat (s : String) : Option Dec :=
  let t := pyStrip s
  let signRest : Int × List Char :=
    match t.data with
    | '-' :: rest => (-1, rest)
    | '+' :: rest => (1, rest)
    | l => (1, l)
  let mantExp := signRest.2.span (fun c => ¬ (c = 'e' ∨ c = 'E'))
  let mant? : Option (Nat × Nat) :=
    let ipRest := mantExp.1.span Char.isDigit
    match ipRest.2 with
    | [] => if ipRest.1 = [] then none else some (digitsVal ipRest.1, 0)
    | '.' :: frac =>
        if frac.all Char.isDigit ∧ (ipRest.1 ≠ [] ∨ frac ≠ []) then
          some (digitsVal (ipRest.1 ++ frac), frac.length)
        else none
    | _ => none
  let exp? : Option Int :=
    match mantExp.2 with
    | [] => some 0
    | _ :: rest =>
        let esignDigits : Int × List Char :=
          match rest with
          | '-' :: r => (-1, r)
          | '+' :: r => (1, r)
          | l => (1, l)
        if esignDigits.2 ≠ [] ∧ esignDigits.2.all Char.isDigit then
          some (esignDigits.1 * (digitsVal esignDigits.2 : Int))
        else none
  match mant?, exp? with
  | some mfr, some e =>
      let scale : Int := e - (mfr.2 : Int)
      if 0 ≤ scale then some ⟨signRest.1 * ((mfr.1 * 10 ^ scale.toNat : Nat) : Int), 1⟩
      else some (mkDec signRest.1 mfr.1 (10 ^ (-scale).toNat))
  | _, _ => none

/-- Python `str()` applied to a dataframe cell: a missing cell is the float
`nan`, whose string form is `"nan"`; a string cell is returned unchanged. -/
def pyStr (cell : Option String) : String :=
  match cell with
  | none => "nan"
  | some s => s

/-! ## The date model (`datetime.date`) -/

/-- A `datetime.date` value. -/
structure PyDate where
  year : Int
  month : Int
  day : Int
deriving DecidableEq, Repr

/-- Gregorian leap-year rule used by `datetime`. -/
def isLeapYear (y : Int) : Bool :=
  y % 4 = 0 ∧ (y % 100 ≠ 0 ∨ y % 400 = 0)

/-- Number of days of month `m` in year `y`. -/
def daysInMonth (y m : Int) : Int :=
  if m = 2 then (if isLeapYear y then 29 else 28)
  else if m = 4 ∨ m = 6 ∨ m = 9 ∨ m = 11 then 30
  else 31

/-- Modelled from Python's `datetime(year, month, day)` constructor: the
components must form a real calendar date with `1 ≤ year ≤ 9999`, otherwise
`ValueError` is raised. -/
def datetimeDate (y m d : Int) : Except String PyDate :=
  if 1 ≤ y ∧ y ≤ 9999 ∧ 1 ≤ m ∧ m ≤ 12 ∧ 1 ≤ d ∧ d ≤ daysInMonth y m then
    .ok ⟨y, m, d⟩
  else
    .error "date value out of range"

/-! ## `CSVLoader._safe_float_conversion` (csv_loader.py lines 354-364) -/

/-- Translated from `str(value).replace(',', '.')` in
`_safe_float_conversion`: every comma of the string becomes a dot. -/
def replaceCommaWithDot (s : String) : String :=
  ⟨s.data.map (fun c => if c = ',' then '.' else c)⟩

/-- Translated from `CSVLoader._safe_float_conversion` (lines 354-364).  The
argument is a dataframe cell (`none` = pandas `NaN`, so `pd.isna(value)` is
`Option.isNone`).  The second component of the result records whether the
`"No se pudo convertir a float"` warning branch ran — the only signal of
invalidity the function emits; the function's Python return value is the
first component alone. -/
def safe_float_conversion (value : Option String) : Dec × Bool :=
  match value with
  | none => (decZero, false)
  | some s =>
      if pyStrip s = "" then (decZero, false)
      else
        match pyFloat (replaceCommaWithDot s) with
        | some q => (q, false)
        | none => (decZero, true)

/-! ## `CSVLoader._parse_date` (csv_loader.py lines 323-352) -/

/-- Modelled from `datetime.strptime(fecha_str, '%Y-%m-%d')`: three
dash-separated all-digit groups (year at most 4 digits, month and day at most
2), validated as a calendar date; any other shape raises `ValueError`. -/
def parse_date_iso (s : String) : Except String PyDate :=
  match pySplit '-' s with
  | [ys, ms, ds] =>
      if ys.data ≠ [] ∧ ys.data.all Char.isDigit ∧ ys.data.length ≤ 4 ∧
         ms.data ≠ [] ∧ ms.data.all Char.isDigit ∧ ms.data.length ≤ 2 ∧
         ds.data ≠ [] ∧ ds.data.all Char.isDigit ∧ ds.data.length ≤ 2 then
        datetimeDate (digitsVal ys.data) (digitsVal ms.data) (digitsVal ds.data)
      else
        .error ("time data does not match format: " ++ s)
  | _ => .error ("time data does not match format: " ++ s)

/-- Translated from lines 335-346 of `_parse_date`: the
`day, month, year = fecha_parts` branch.  A 2-character year string is parsed
and century-pivoted (`year > 50` selects the 1900s, otherwise the 2000s);
other year strings are parsed as written; `int()` failures raise
`ValueError`, and the components go through the `datetime` constructor. -/
def parse_slash_parts (day month year : String) : Except String PyDate :=
  let year? : Option Int :=
    if year.data.length = 2 then
      (pyInt year).map (fun y => if y > 50 then 1900 + y else 2000 + y)
    else
      pyInt year
  match year?, pyInt month, pyInt day with
  | some y, some m, some d => datetimeDate y m d
  | _, _, _ => .error "invalid literal for int() with base 10"

/-- Translated from `CSVLoader._parse_date` (lines 323-352).  A missing cell
(`pd.isna`) or a whitespace-only string raises `ValueError("Fecha vacía")`;
a string containing `/` is split on `/` and must yield exactly three parts,
which are handled by `parse_slash_parts`; otherwise a string containing `-`
goes through `strptime('%Y-%m-%d')`; anything else raises `ValueError`. -/
def parse_date (fecha : Option String) : Except String PyDate :=
  match fecha with
  | none => .error "Fecha vacía"
  | some raw =>
      if pyStrip raw = "" then .error "Fecha vacía"
      else
        let fecha_str := pyStrip raw
        if fecha_str.data.contains '/' then
          match pySplit '/' fecha_str with
          | [day, month, year] => parse_slash_parts day month year
          | _ => .error ("Formato de fecha inválido: " ++ fecha_str)
        else if fecha_str.data.contains '-' then
          parse_date_iso fecha_str
        else
          .error ("Formato de fecha no reconocido: " ++ fecha_str)


/-! ## The dataframe model -/

/-- One dataframe row: the cells under the 14 expected columns of the input
file (external interface of the spec / the column names used by
`_load_master_data` and `_load_declarations`).  `none` is a missing cell
(pandas `NaN`). -/
structure Row where
  aduana : Option String
  pais : Option String
  tipo_regimen : Option String
  tipo_unidad_medida : Option String
  sac : Option String
  correlativo : Option String
  fecha_declaracion : Option String
  tipo_cambio_dolar : Option String
  descripcion : Option String
  cantidad_fraccion : Option String
  tasa_dai : Option String
  valor_dai : Option String
  valor_cif_uds : Option String
  tasa_cif_cantidad_fraccion : Option String
deriving DecidableEq, Repr

/-- A dataframe: the header (`df.columns`, also each row's `row.index`) and
the rows.  A `Row` field is meaningful only when its column name occurs in
`columns`. -/
structure Df where
  columns : List String
  rows : List Row
deriving DecidableEq, Repr

/-! ## `CSVLoader._read_csv_line_by_line` (csv_loader.py lines 118-162) -/

/-- Python list slicing `l[:i]` for a possibly negative index, as used in
`row[:expected_cols-1]`. -/
def pySliceTo (l : List α) (i : Int) : List α :=
  if 0 ≤ i then l.take i.toNat else l.take (l.length - (-i).toNat)

/-- Python list slicing `l[i:]` for a possibly negative index, as used in
`row[expected_cols-1:]`. -/
def pySliceFrom (l : List α) (i : Int) : List α :=
  if 0 ≤ i then l.drop i.toNat else l.drop (l.length - (-i).toNat)

/-- Accumulator of the line loop: `valid_rows` and `problematic_lines`. -/
structure LineReadState where
  valid_rows : List (List String)
  problematic_lines : List Nat
deriving DecidableEq, Repr

/-- Translated from the loop body of `_read_csv_line_by_line` (lines
128-155) for a data line (`line_num ≥ 2`): a line with the expected number
of fields is appended as is; otherwise its number is recorded in
`problematic_lines` and the line is appended repaired — extra trailing
fields re-joined into the last column by `';'.join(row[expected_cols-1:])`,
missing trailing fields padded with `''`. -/
def processDataLine (expected_cols : Nat) (st : LineReadState) (line_num : Nat)
    (row : List String) : LineReadState :=
  if row.length = expected_cols then
    { st with valid_rows := st.valid_rows ++ [row] }
  else
    let st1 : LineReadState :=
      { st with problematic_lines := st.problematic_lines ++ [line_num] }
    if row.length > expected_cols then
      { st1 with valid_rows := st1.valid_rows ++
          [pySliceTo row ((expected_cols : Int) - 1) ++
            [joinSemicolon (pySliceFrom row ((expected_cols : Int) - 1))]] }
    else
      { st1 with valid_rows := st1.valid_rows ++
          [row ++ List.replicate (expected_cols - row.length) ""] }

/-- Translated from `CSVLoader._read_csv_line_by_line` (lines 118-162).  The
model input is the output of `csv.reader` (the already-split lines); line 1
becomes the header (`expected_cols` its field count), the remaining lines go
through `processDataLine` with 1-based line numbers starting at 2, and the
result is the data of `pd.DataFrame(valid_rows, columns=headers)` paired
with the `problematic_lines` diagnostic list. -/
def read_csv_line_by_line (lines : List (List String)) :
    (List String × List (List String)) × List Nat :=
  match lines with
  | [] => (([], []), [])
  | headers :: rest =>
      let expected_cols := headers.length
      let st := (rest.enumFrom 2).foldl
        (fun st p => processDataLine expected_cols st p.1 p.2)
        ⟨[], []⟩
      ((headers, st.valid_rows), st.problematic_lines)

/-! ## `CSVLoader._read_csv_robust` (csv_loader.py lines 53-116) -/

/-- Outcomes of the read strategies for one file.  The four pandas
`read_csv` calls and the `csv.reader` pass are external-library behaviour,
so they enter the model as parameters: each field is the outcome (`ok` a
dataframe, or `error` = an exception was raised) of the corresponding
attempt on the loader's file. -/
structure ReadAttempts where
  basic : Except String Df
  robust : Except String Df
  line_by_line : Except String Df
  by_encoding : String → Except String Df

/-- The encoding list of strategy 4 (line 98). -/
def encodings : List String := ["utf-8", "latin-1", "cp1252", "iso-8859-1"]

/-- Translated from `CSVLoader._read_csv_robust` (lines 53-116): try the
basic read, then the robust read, then the line-by-line read, then one plain
read per encoding in `encodings`; each `try` block returns the dataframe of
the first attempt that does not raise, and `None` is returned only when
every attempt raised. -/
def read_csv_robust (a : ReadAttempts) : Option Df :=
  match a.basic with
  | .ok df => some df
  | .error _ =>
      match a.robust with
      | .ok df => some df
      | .error _ =>
          match a.line_by_line with
          | .ok df => some df
          | .error _ =>
              encodings.findSome? (fun enc =>
                match a.by_encoding enc with
                | .ok df => some df
                | .error _ => none)

/-! ## The relational store and the ORM session (models.py, database.py) -/

/-- A row of one of the five reference tables of models.py (`Aduana`,
`Pais`, `TipoRegimen`, `UnidadMedida`, `CodigoSAC`): a surrogate id and the
natural-key string (`nombre`, or `codigo` for `CodigoSAC`). -/
structure RefEntity where
  id : Nat
  nombre : String
deriving DecidableEq, Repr

/-- A row of `declaraciones_importacion` (models.py lines 60-86), with the
fields set by the constructor call of `_load_declarations` (lines 293-308).
`correlativo` and `descripcion` are stored as the raw cells. -/
structure Declaracion where
  correlativo : Option String
  fecha_declaracion : PyDate
  tipo_cambio_dolar : Dec
  descripcion : Option String
  cantidad_fraccion : Dec
  tasa_dai : Dec
  valor_dai : Dec
  valor_cif_usd : Dec
  tasa_cif_cantidad_fraccion : Dec
  aduana_id : Nat
  pais_id : Nat
  tipo_regimen_id : Nat
  unidad_medida_id : Nat
  codigo_sac_id : Nat
deriving DecidableEq, Repr

/-- The persisted database contents: the five reference tables and the fact
table. -/
structure DB where
  aduanas : List RefEntity
  paises : List RefEntity
  tipos_regimen : List RefEntity
  unidades_medida : List RefEntity
  codigos_sac : List RefEntity
  declaraciones : List Declaracion
deriving DecidableEq, Repr

/-- The ORM session created by `SessionLocal()` (database.py line 16,
`sessionmaker(autocommit=False, autoflush=False, bind=engine)`): the
database as last flushed/committed, plus the objects staged with
`session.add` since then.  Because `autoflush=False`, queries read only
`db`, never the pending lists. -/
structure Session where
  db : DB
  new_aduanas : List String
  new_paises : List String
  new_tipos_regimen : List String
  new_unidades_medida : List String
  new_codigos_sac : List String
  new_declaraciones : List Declaracion
deriving DecidableEq, Repr

/-- A session over `db` with nothing pending. -/
def Session.fresh (db : DB) : Session :=
  ⟨db, [], [], [], [], [], []⟩

/-- Model of `session.rollback()` (csv_loader.py line 47): pending objects are
discarded; the persisted contents stay. -/
def Session.rollback (s : Session) : Session :=
  Session.fresh s.db

/-- Autoincrement id for the next row of a reference table: one more than
the largest id present. -/
def nextId (tbl : List RefEntity) : Nat :=
  (tbl.map RefEntity.id).foldl max 0 + 1

/-- Insert pending natural keys into a reference table in staging order,
assigning autoincrement ids. -/
def appendNames (tbl : List RefEntity) (names : List String) : List RefEntity :=
  names.foldl (fun t n => t ++ [⟨nextId t, n⟩]) tbl

/-- Model of `session.commit()`: every pending object is flushed to the database and
the pending lists empty. -/
def Session.commit (s : Session) : Session :=
  Session.fresh
    { aduanas := appendNames s.db.aduanas s.new_aduanas
      paises := appendNames s.db.paises s.new_paises
      tipos_regimen := appendNames s.db.tipos_regimen s.new_tipos_regimen
      unidades_medida := appendNames s.db.unidades_medida s.new_unidades_medida
      codigos_sac := appendNames s.db.codigos_sac s.new_codigos_sac
      declaraciones := s.db.declaraciones ++ s.new_declaraciones }

/-- Model of `self.db.query(T).filter(T.nombre == name).first()`: with
`autoflush=False` the query sees only rows already in the database, never
objects pending in the session. -/
def queryRefFirst (tbl : List RefEntity) (name : String) : Option RefEntity :=
  tbl.find? (fun e => e.nombre == name)

/-- The same query when the compared value is a raw cell: a missing cell
(`NaN`) matches no row. -/
def queryRefByCell (tbl : List RefEntity) (cell : Option String) : Option RefEntity :=
  match cell with
  | none => none
  | some n => queryRefFirst tbl n

/-! ## `CSVLoader._load_master_data` (csv_loader.py lines 199-251) -/

/-- The `required_columns` list of line 203. -/
def required_columns : List String :=
  ["aduana", "pais", "tipo_regimen", "tipo_unidad_medida", "sac"]

/-- pandas `Series.dropna().unique()`: the non-null cells of a column with
duplicates removed, first occurrence order preserved. -/
def dropnaUnique (cells : List (Option String)) : List String :=
  (cells.filterMap id).foldl (fun acc n => if n ∈ acc then acc else acc ++ [n]) []

/-- One category block of `_load_master_data` (e.g. lines 212-217): for each
unique name, `session.add` the entity unless `self.db.query(...).first()`
finds it — which, with `autoflush=False`, consults the persisted table
only. -/
def stageMissing (tbl : List RefEntity) (pending : List String)
    (names : List String) : List String :=
  names.foldl (fun p n => if (queryRefFirst tbl n).isSome then p else p ++ [n]) pending

/-- Translated from `CSVLoader._load_master_data` (lines 199-251): abort
when any required column is missing (before any staging); otherwise stage
the unseen unique names of the five reference columns and commit. -/
def load_master_data (df : Df) (s : Session) : Session :=
  let missing_columns := required_columns.filter (fun c => !(df.columns.contains c))
  if missing_columns ≠ [] then s
  else
    let aduanas_unicas := dropnaUnique (df.rows.map Row.aduana)
    let paises_unicos := dropnaUnique (df.rows.map Row.pais)
    let regimenes_unicos := dropnaUnique (df.rows.map Row.tipo_regimen)
    let unidades_unicas := dropnaUnique (df.rows.map Row.tipo_unidad_medida)
    let codigos_sac_unicos := dropnaUnique (df.rows.map Row.sac)
    let s1 := if df.columns.contains "aduana" then
        { s with new_aduanas := stageMissing s.db.aduanas s.new_aduanas aduanas_unicas }
      else s
    let s2 := if df.columns.contains "pais" then
        { s1 with new_paises := stageMissing s1.db.paises s1.new_paises paises_unicos }
      else s1
    let s3 := if df.columns.contains "tipo_regimen" then
        { s2 with new_tipos_regimen := stageMissing s2.db.tipos_regimen s2.new_tipos_regimen regimenes_unicos }
      else s2
    let s4 := if df.columns.contains "tipo_unidad_medida" then
        { s3 with new_unidades_medida := stageMissing s3.db.unidades_medida s3.new_unidades_medida unidades_unicas }
      else s3
    let s5 := if df.columns.contains "sac" then
        { s4 with new_codigos_sac := stageMissing s4.db.codigos_sac s4.new_codigos_sac codigos_sac_unicos }
      else s4
    s5.commit

/-! ## `CSVLoader._load_declarations` (csv_loader.py lines 253-321) -/

/-- The natural-key duplicate query of lines 285-289: with
`autoflush=False` it consults only the records already in the database,
never `new_declaraciones`. -/
def findExistingDecl (db : DB) (correlativo : Option String) (sacId : Nat)
    (descripcion : Option String) : Option Declaracion :=
  db.declaraciones.find? (fun d =>
    d.correlativo == correlativo && d.codigo_sac_id == sacId &&
      d.descripcion == descripcion)

/-- One iteration of the row loop of `_load_declarations` (lines 259-318).
The accumulator carries the session and `(success_count, error_count)`.
A row missing a required column, failing a reference lookup, or with an
unparseable date is counted as an error; a row whose natural key is already
persisted is skipped without touching either counter; otherwise the record
is built (every numeric field through `_safe_float_conversion`, whose
returned value is the `Dec` component) and staged with `session.add`. -/
def processDeclRow (columns : List String) (acc : Session × Nat × Nat)
    (row : Row) : Session × Nat × Nat :=
  let s := acc.1
  let success_count := acc.2.1
  let error_count := acc.2.2
  if !(required_columns.all (fun c => columns.contains c)) then
    (s, success_count, error_count + 1)
  else
    match queryRefByCell s.db.aduanas row.aduana,
        queryRefByCell s.db.paises row.pais,
        queryRefByCell s.db.tipos_regimen row.tipo_regimen,
        queryRefByCell s.db.unidades_medida row.tipo_unidad_medida,
        queryRefFirst s.db.codigos_sac (pyStr row.sac) with
    | some aduana, some pais, some regimen, some unidad, some sac =>
        match parse_date row.fecha_declaracion with
        | .error _ => (s, success_count, error_count + 1)
        | .ok fecha =>
            match findExistingDecl s.db row.correlativo sac.id row.descripcion with
            | some _ => (s, success_count, error_count)
            | none =>
                let d : Declaracion :=
                  { correlativo := row.correlativo
                    fecha_declaracion := fecha
                    tipo_cambio_dolar := (safe_float_conversion row.tipo_cambio_dolar).1
                    descripcion := row.descripcion
                    cantidad_fraccion := (safe_float_conversion row.cantidad_fraccion).1
                    tasa_dai := (safe_float_conversion row.tasa_dai).1
                    valor_dai := (safe_float_conversion row.valor_dai).1
                    valor_cif_usd := (safe_float_conversion row.valor_cif_uds).1
                    tasa_cif_cantidad_fraccion :=
                      (safe_float_conversion row.tasa_cif_cantidad_fraccion).1
                    aduana_id := aduana.id
                    pais_id := pais.id
                    tipo_regimen_id := regimen.id
                    unidad_medida_id := unidad.id
                    codigo_sac_id := sac.id }
                ({ s with new_declaraciones := s.new_declaraciones ++ [d] },
                  success_count + 1, error_count)
    | _, _, _, _, _ => (s, success_count, error_count + 1)

/-- Translated from `CSVLoader._load_declarations` (lines 253-321): fold the
row loop over the dataframe starting from counters `(0, 0)`, then commit.
Returns the session after the commit and `(success_count, error_count)`. -/
def load_declarations (df : Df) (s : Session) : Session × Nat × Nat :=
  let r := df.rows.foldl (fun acc row => processDeclRow df.columns acc row) (s, 0, 0)
  (r.1.commit, r.2)

/-! ## `CSVLoader.load_csv_data` (csv_loader.py lines 14-51) -/

/-- A Python exception value relevant to the load path. -/
inductive PyError where
  | attributeError (msg : String)
deriving DecidableEq, Repr

/-- Python `str(e)` for the modelled exceptions. -/
def PyError.str : PyError → String
  | .attributeError m => m

/-- Line 35 calls `self._clean_existing_data()`, but no method or function
of that name is defined anywhere in the `CSVLoader` class or the module, so
the attribute lookup raises `AttributeError` at the call site. -/
def clean_existing_data : Except PyError Unit :=
  .error (.attributeError "'CSVLoader' object has no attribute '_clean_existing_data'")

/-- The structured result dictionaries returned by `load_csv_data`. -/
inductive LoadResult where
  | success (records_loaded : Nat)
  | error (message : String)
deriving DecidableEq, Repr

/-- The file-system/pandas environment of one `load_csv_data` call:
whether `os.path.exists(self.csv_file_path)` holds, and the read-strategy
outcomes for the file. -/
structure FileState where
  file_exists : Bool
  attempts : ReadAttempts

/-- Translated from `CSVLoader._load_sample_data` (lines 366-368): the body is `pass`, so
the call returns Python `None` — modelled as `Option.none` of the result
type. -/
def load_sample_data : Option LoadResult := none

/-- Translated from the `try` body of `CSVLoader.load_csv_data` (lines
16-44).  An uncaught exception is an `Except.error` carrying the session
state at the raise point; a Python `return` is `Except.ok` with the return
value (`none` = Python `None`).  `Base.metadata.create_all` only creates
missing tables, leaving the modelled contents unchanged.  After the
`_clean_existing_data` call the remaining statements (lines 38-44) are
translated as written even though the raise at line 35 makes them
unreachable. -/
def load_csv_body (fs : FileState) (s : Session) :
    Except (PyError × Session) (Option LoadResult × Session) :=
  if fs.file_exists = false then
    .ok (load_sample_data, s)
  else
    match read_csv_robust fs.attempts with
    | none => .ok (some (.error "No se pudo leer el archivo CSV"), s)
    | some df =>
        match clean_existing_data with
        | .error e => .error (e, s)
        | .ok _ =>
            let s1 := load_master_data df s
            let r := load_declarations df s1
            .ok (some (.success df.rows.length), r.1)

/-- Translated from `CSVLoader.load_csv_data` (lines 14-51) including the
`except Exception` handler and the `finally` block: any exception raised in
the body is caught, the session rolled back and an error dictionary
returned; `self.db.close()` releases the connection without changing the
data.  The first component is the Python return value (`none` = `None`). -/
def load_csv_data (fs : FileState) (s : Session) : Option LoadResult × Session :=
  match load_csv_body fs s with
  | .ok r => r
  | .error es => (some (.error es.1.str), es.2.rollback)

/-! ## Derived definitions used in the statements -/

/-- The per-line result of the repair pass of `_read_csv_line_by_line`,
written directly as a function of the header width: lines with the expected
width are kept, wider lines merged into the last column, narrower lines
padded with empty fields. -/
def repairLine (expected_cols : Nat) (row : List String) : List String :=
  if row.length = expected_cols then row
  else if row.length > expected_cols then
    pySliceTo row ((expected_cols : Int) - 1) ++
      [joinSemicolon (pySliceFrom row ((expected_cols : Int) - 1))]
  else row ++ List.replicate (expected_cols - row.length) ""

/-- The natural key consulted by the duplicate query of lines 285-289. -/
def declKey (d : Declaracion) : Option String × Nat × Option String :=
  (d.correlativo, d.codigo_sac_id, d.descripcion)

/-- The natural key that a row would stage under the persisted store `db`
(0 when the SAC lookup fails, in which case the row never stages). -/
def rowKey (db : DB) (row : Row) : Option String × Nat × Option String :=
  (row.correlativo,
    ((queryRefFirst db.codigos_sac (pyStr row.sac)).map RefEntity.id).getD 0,
    row.descripcion)

/-! ## Concrete data used by the closed theorems -/

/-- The 14 expected columns of the input file (spec §6). -/
def stdColumns : List String :=
  ["aduana", "pais", "tipo_regimen", "tipo_unidad_medida", "sac", "correlativo",
   "fecha_declaracion", "tipo_cambio_dolar", "descripcion", "cantidad_fraccion",
   "tasa_dai", "valor_dai", "valor_cif_uds", "tasa_cif_cantidad_fraccion"]

/-- One well-formed data row (the scenario row of spec §8). -/
def sampleRow : Row :=
  { aduana := some "PuertoX"
    pais := some "CountryY"
    tipo_regimen := some "Import"
    tipo_unidad_medida := some "KG"
    sac := some "1234"
    correlativo := some "COR001"
    fecha_declaracion := some "01/02/23"
    tipo_cambio_dolar := some "7.8"
    descripcion := some "Mercancia general"
    cantidad_fraccion := some "10"
    tasa_dai := some "0.15"
    valor_dai := some "117"
    valor_cif_uds := some "780"
    tasa_cif_cantidad_fraccion := some "78" }

/-- A dataframe holding `sampleRow` once. -/
def sampleDf : Df := ⟨stdColumns, [sampleRow]⟩

/-- A dataframe holding the identical row twice. -/
def sampleDfTwice : Df := ⟨stdColumns, [sampleRow, sampleRow]⟩

/-- The empty store. -/
def emptyDB : DB := ⟨[], [], [], [], [], []⟩

/-- The store after the intended first load of `sampleDf` (master data then
declarations, starting from the empty store). -/
def loadedDB : DB :=
  ((load_declarations sampleDf (load_master_data sampleDf (Session.fresh emptyDB))).1).db

/-- The store after one load of the duplicated-row file. -/
def loadedTwiceDB : DB :=
  ((load_declarations sampleDfTwice (load_master_data sampleDfTwice (Session.fresh emptyDB))).1).db

/-- A successfully parsed dataframe with a header and zero data rows. -/
def emptyDf : Df := ⟨["a"], []⟩

/-- A dataframe with one data row. -/
def oneRowDf : Df := ⟨["a"], [sampleRow]⟩

/-- Read outcomes of a file on which the basic strategy succeeds with zero
rows while the line-by-line strategy would deliver a row. -/
def c5Attempts : ReadAttempts :=
  ⟨.ok emptyDf, .error "ParserError", .ok oneRowDf, fun _ => .error "ParserError"⟩

/-- Environment of a call whose file path does not exist. -/
def missingFileState : FileState := ⟨false, c5Attempts⟩

/-- Environment of a call whose file exists and parses (to `emptyDf`). -/
def existsFileState : FileState := ⟨true, c5Attempts⟩

/-- Environment of a call whose file exists and parses to `sampleDf`. -/
def sampleFileState : FileState :=
  ⟨true, ⟨.ok sampleDf, .error "e", .error "e", fun _ => .error "e"⟩⟩


/-! ## Helper lemmas -/

/-- A string containing a non-whitespace character does not strip to the
empty string. -/
theorem pyStrip_ne_empty (s : String) (c : Char) (hc : c ∈ s.data)
    (hns : isPySpace c = false) : pyStrip s ≠ "" := by
  intro h
  have hdata : (((s.data.dropWhile isPySpace).reverse.dropWhile isPySpace).reverse) = [] := by
    have := congrArg String.data h
    simpa [pyStrip] using this
  rw [List.reverse_eq_nil_iff, List.dropWhile_eq_nil_iff] at hdata
  have hall : ∀ x ∈ s.data.dropWhile isPySpace, isPySpace x = true := by
    intro x hx
    exact hdata x (List.mem_reverse.mpr hx)
  have hsplit := List.takeWhile_append_dropWhile (p := isPySpace) (l := s.data)
  rw [← hsplit] at hc
  rcases List.mem_append.mp hc with h1 | h2
  · exact absurd (List.mem_takeWhile_imp h1) (by simp [hns])
  · exact absurd (hall c h2) (by simp [hns])

/-- The map `replaceCommaWithDot` distributes over append. -/
theorem replaceCommaWithDot_append (a b : String) :
    replaceCommaWithDot (a ++ b) = replaceCommaWithDot a ++ replaceCommaWithDot b := by
  apply String.ext
  simp [replaceCommaWithDot]

/-- The comma-to-dot character map is the identity on digit lists. -/
theorem map_comma_id (l : List Char) (h : ∀ c ∈ l, c.isDigit) :
    l.map (fun c => if c = ',' then '.' else c) = l := by
  induction l with
  | nil => rfl
  | cons c t ih =>
      have hc : c.isDigit := h c (by simp)
      have hne : c ≠ ',' := by
        intro he
        rw [he] at hc
        exact absurd hc (by decide)
      simp only [List.map_cons, if_neg hne]
      rw [ih (fun x hx => h x (by simp [hx]))]

/-- The map `replaceCommaWithDot` is the identity on strings of digits. -/
theorem replaceCommaWithDot_digits (a : String) (h : ∀ c ∈ a.data, c.isDigit) :
    replaceCommaWithDot a = a := by
  apply String.ext
  show a.data.map (fun c => if c = ',' then '.' else c) = a.data
  exact map_comma_id a.data h

/-- Shape of the successful `datetime` constructor call. -/
theorem datetimeDate_ok (y m d : Int) (dt : PyDate)
    (h : datetimeDate y m d = .ok dt) : dt = ⟨y, m, d⟩ := by
  rw [datetimeDate] at h
  by_cases hc : 1 ≤ y ∧ y ≤ 9999 ∧ 1 ≤ m ∧ m ≤ 12 ∧ 1 ≤ d ∧ d ≤ daysInMonth y m
  · rw [if_pos hc] at h
    cases h
    rfl
  · rw [if_neg hc] at h
    exact Except.noConfusion h

/-! ## C6 -/

/-- C6 counterexample: at the concrete raw inputs `""` (blank) and
`"not a date"` (unrecognized shape) the date normalization used by the
loader does not return a best-effort value with a validity indication — it
raises `ValueError`, contradicting the claim that it never raises and
degrades to a default. -/
theorem c6_counterexample :
    parse_date (some "") = .error "Fecha vacía" ∧
    parse_date (some "not a date") =
      .error "Formato de fecha no reconocido: not a date" := by
  exact ⟨rfl, rfl⟩

/-- C6 (amended): the decimal normalizer is total, but the date
normalization used by the loader is not — a missing, empty or
whitespace-only input raises `ValueError("Fecha vacía")` and a non-blank
input containing neither `/` nor `-` raises `ValueError` with the
unrecognized-format message; it never degrades to a default date.  (The
loader compensates per row: lines 278-283 catch the exception and count the
row as an error.) -/
theorem c6_date_normalizer_raises (s : String) :
    (parse_date none = .error "Fecha vacía") ∧
    (pyStrip s = "" → parse_date (some s) = .error "Fecha vacía") ∧
    (pyStrip s ≠ "" → '/' ∉ (pyStrip s).data → '-' ∉ (pyStrip s).data →
      parse_date (some s) = .error ("Formato de fecha no reconocido: " ++ pyStrip s)) := by
  refine ⟨rfl, ?_, ?_⟩
  · intro h
    simp [parse_date, h]
  · intro h h1 h2
    simp [parse_date, h, h1, h2]

/-- C6 witness: the amended theorem applied at the whitespace-only input
`" "` and the unrecognized input `"x"`. -/
theorem c6_date_normalizer_raises_witness :
    parse_date (some " ") = .error "Fecha vacía" ∧
    parse_date (some "x") = .error ("Formato de fecha no reconocido: " ++ pyStrip "x") := by
  exact ⟨(c6_date_normalizer_raises " ").2.1 (by decide),
    (c6_date_normalizer_raises "x").2.2 (by decide) (by decide) (by decide)⟩

/-! ## C7 -/

/-- C7: in the D/M/Y branch, a two-digit year string parsed as the integer
`y` yields year `1900 + y` when `y ≥ 51` and `2000 + y` otherwise; in
particular "15/03/49" parses to 2049-03-15, "15/03/51" to 1951-03-15, and
the boundary "15/03/50" to 2050-03-15. -/
theorem c7_two_digit_year_pivot (ds ms ys : String) (y : Int) (dt : PyDate)
    (hlen : ys.data.length = 2) (hy : pyInt ys = some y)
    (hok : parse_slash_parts ds ms ys = .ok dt) :
    (dt.year = if y ≥ 51 then 1900 + y else 2000 + y) ∧
    parse_date (some "15/03/49") = .ok ⟨2049, 3, 15⟩ ∧
    parse_date (some "15/03/51") = .ok ⟨1951, 3, 15⟩ ∧
    parse_date (some "15/03/50") = .ok ⟨2050, 3, 15⟩ := by
  refine ⟨?_, rfl, rfl, rfl⟩
  simp only [parse_slash_parts, hlen, hy, Option.map_some', if_pos rfl] at hok
  cases hms : pyInt ms with
  | none => rw [hms] at hok; exact absurd hok (by simp)
  | some m =>
      cases hds : pyInt ds with
      | none => rw [hms, hds] at hok; exact absurd hok (by simp)
      | some d =>
          rw [hms, hds] at hok
          have hdt := datetimeDate_ok _ _ _ _ hok
          rw [hdt]
          show (if y > 50 then 1900 + y else 2000 + y) = _
          rcases le_or_lt 51 y with h51 | h51
          · rw [if_pos (by omega), if_pos (show y ≥ 51 from h51)]
          · rw [if_neg (by omega), if_neg (by omega)]

/-- C7 witness: the pivot theorem applied at the concrete parts
"15"/"03"/"49" with `y = 49`. -/
theorem c7_two_digit_year_pivot_witness :
    ((⟨2049, 3, 15⟩ : PyDate).year = if (49 : Int) ≥ 51 then 1900 + 49 else 2000 + 49) ∧
    parse_date (some "15/03/49") = .ok ⟨2049, 3, 15⟩ ∧
    parse_date (some "15/03/51") = .ok ⟨1951, 3, 15⟩ ∧
    parse_date (some "15/03/50") = .ok ⟨2050, 3, 15⟩ :=
  c7_two_digit_year_pivot "15" "03" "49" 49 ⟨2049, 3, 15⟩ (by decide) (by decide) rfl

/-! ## C9 -/

/-- C9 counterexample: at the concrete blank input `""` the conversion
returns `0.0` with no invalidity indication at all — the warning branch,
the only invalidity signal `_safe_float_conversion` has, does not run and
no validity flag is part of the return value — contradicting "maps a blank
… value to 0.0 (with the value flagged invalid)". -/
theorem c9_counterexample :
    safe_float_conversion (some "") = (decZero, false) := by decide

/-- C9 (amended): `_safe_float_conversion` maps a blank or missing value to
`0.0` silently (no invalidity signal) and an unparseable value to `0.0`
with only a logged warning — no validity flag is returned in either case;
commas are replaced by dots before the parse, so every value written with a
comma as decimal separator converts to exactly the same float as the same
value written with a dot. -/
theorem c9_blank_silent_comma_is_dot (v : Option String) (a b : String)
    (ha : ∀ c ∈ a.data, c.isDigit) (hb : ∀ c ∈ b.data, c.isDigit) :
    ((v = none ∨ (∃ s, v = some s ∧ pyStrip s = "")) →
      safe_float_conversion v = (decZero, false)) ∧
    (∀ s, v = some s → pyStrip s ≠ "" → pyFloat (replaceCommaWithDot s) = none →
      safe_float_conversion v = (decZero, true)) ∧
    safe_float_conversion (some (a ++ "," ++ b)) =
      safe_float_conversion (some (a ++ "." ++ b)) := by
  refine ⟨?_, ?_, ?_⟩
  · rintro (rfl | ⟨s, rfl, hs⟩)
    · rfl
    · simp [safe_float_conversion, hs]
  · rintro s rfl hs hf
    simp [safe_float_conversion, hs, hf]
  · have hmem1 : ',' ∈ (a ++ "," ++ b).data := by
      simp [String.data_append]
    have hmem2 : '.' ∈ (a ++ "." ++ b).data := by
      simp [String.data_append]
    have h1 : pyStrip (a ++ "," ++ b) ≠ "" :=
      pyStrip_ne_empty _ ',' hmem1 (by decide)
    have h2 : pyStrip (a ++ "." ++ b) ≠ "" :=
      pyStrip_ne_empty _ '.' hmem2 (by decide)
    have hrep : replaceCommaWithDot (a ++ "," ++ b) =
        replaceCommaWithDot (a ++ "." ++ b) := by
      rw [replaceCommaWithDot_append, replaceCommaWithDot_append,
        replaceCommaWithDot_append, replaceCommaWithDot_append,
        replaceCommaWithDot_digits a ha, replaceCommaWithDot_digits b hb]
      rfl
    simp only [safe_float_conversion, if_neg h1, if_neg h2, hrep]

/-- C9 witness: the amended theorem applied at `v = some ""` (blank),
`"abc"` (unparseable) and the digit strings "1234"/"56". -/
theorem c9_blank_silent_comma_is_dot_witness :
    safe_float_conversion (some "") = (decZero, false) ∧
    safe_float_conversion (some "abc") = (decZero, true) ∧
    safe_float_conversion (some ("1234" ++ "," ++ "56")) =
      safe_float_conversion (some ("1234" ++ "." ++ "56")) := by
  refine ⟨?_, ?_, ?_⟩
  · exact (c9_blank_silent_comma_is_dot (some "") "1234" "56" (by decide) (by decide)).1
      (Or.inr ⟨"", rfl, by decide⟩)
  · exact (c9_blank_silent_comma_is_dot (some "abc") "1234" "56" (by decide) (by decide)).2.1
      "abc" rfl (by decide) (by decide)
  · exact (c9_blank_silent_comma_is_dot (some "") "1234" "56" (by decide) (by decide)).2.2

/-! ## C10 -/

/-- C10: `_safe_float_conversion` replaces every comma with a dot before the
float conversion and catches conversion failures, returning 0.0, so it is
total; a string with both a thousands separator and a decimal separator
becomes a two-dot string, fails the parse and yields 0.0 instead of the
intended value (the dot-only spelling "1234.56" parses to the non-zero
30864/25 = 1234.56). -/
theorem c10_mixed_separator_strings_yield_zero (s : String) (h : pyStrip s ≠ "") :
    (safe_float_conversion (some s) =
      match pyFloat (replaceCommaWithDot s) with
      | some q => (q, false)
      | none => (decZero, true)) ∧
    (safe_float_conversion (some "1,234.56")).1 = decZero ∧
    (safe_float_conversion (some "1.234,56")).1 = decZero ∧
    (safe_float_conversion (some "1234.56")).1 = ⟨30864, 25⟩ ∧
    (⟨30864, 25⟩ : Dec) ≠ decZero := by
  refine ⟨?_, by decide, by decide, by decide, by decide⟩
  simp [safe_float_conversion, h]

/-- C10 witness: the theorem applied at the non-blank input "1,234.56". -/
theorem c10_mixed_separator_strings_yield_zero_witness :
    (safe_float_conversion (some "1,234.56") =
      match pyFloat (replaceCommaWithDot "1,234.56") with
      | some q => (q, false)
      | none => (decZero, true)) ∧
    (safe_float_conversion (some "1,234.56")).1 = decZero ∧
    (safe_float_conversion (some "1.234,56")).1 = decZero ∧
    (safe_float_conversion (some "1234.56")).1 = ⟨30864, 25⟩ ∧
    (⟨30864, 25⟩ : Dec) ≠ decZero :=
  c10_mixed_separator_strings_yield_zero "1,234.56" (by decide)

/-! ## C5 -/

/-- C5 counterexample: a file on which the basic strategy succeeds with a
dataframe of zero data rows while the line-by-line strategy would produce
one row.  `_read_csv_robust` returns the empty dataframe of the first
non-raising strategy, so the later row-producing strategy is never reached
— contradicting "stops at the first strategy producing at least one row". -/
theorem c5_counterexample :
    read_csv_robust c5Attempts = some emptyDf ∧
    emptyDf.rows.length = 0 ∧
    c5Attempts.line_by_line = .ok oneRowDf ∧
    oneRowDf.rows.length = 1 ∧
    read_csv_robust c5Attempts ≠ some oneRowDf := by
  refine ⟨rfl, rfl, rfl, rfl, ?_⟩
  intro h
  exact absurd (Option.some.inj h) (by decide)

/-- C5 (amended): the decoder attempts its strategies in the fixed order
basic read, robust read, line-by-line read, then plain reads over the
encodings utf-8, latin-1, cp1252, iso-8859-1, and stops at the first
attempt that completes without raising an exception — even when that
attempt yields zero rows; it never merges partial results: any returned
dataframe is exactly the outcome of one single attempt. -/
theorem c5_first_non_raising_strategy_wins (a : ReadAttempts) :
    (∀ df, a.basic = .ok df → read_csv_robust a = some df) ∧
    (∀ e df, a.basic = .error e → a.robust = .ok df → read_csv_robust a = some df) ∧
    (∀ e1 e2 df, a.basic = .error e1 → a.robust = .error e2 →
      a.line_by_line = .ok df → read_csv_robust a = some df) ∧
    (∀ e1 e2 e3, a.basic = .error e1 → a.robust = .error e2 →
      a.line_by_line = .error e3 →
      read_csv_robust a = encodings.findSome? (fun enc =>
        match a.by_encoding enc with
        | .ok df => some df
        | .error _ => none)) ∧
    (∀ df, read_csv_robust a = some df →
      a.basic = .ok df ∨ a.robust = .ok df ∨ a.line_by_line = .ok df ∨
        ∃ enc ∈ encodings, a.by_encoding enc = .ok df) := by
  refine ⟨?_, ?_, ?_, ?_, ?_⟩
  · intro df h
    simp [read_csv_robust, h]
  · intro e df h1 h2
    simp [read_csv_robust, h1, h2]
  · intro e1 e2 df h1 h2 h3
    simp [read_csv_robust, h1, h2, h3]
  · intro e1 e2 e3 h1 h2 h3
    simp [read_csv_robust, h1, h2, h3]
  · intro df h
    rw [read_csv_robust] at h
    cases hb : a.basic with
    | ok d =>
        rw [hb] at h
        have hd : d = df := Option.some.inj h
        exact Or.inl (congrArg Except.ok hd)
    | error eb =>
        rw [hb] at h
        cases hr : a.robust with
        | ok d =>
            rw [hr] at h
            have hd : d = df := Option.some.inj h
            exact Or.inr (Or.inl (congrArg Except.ok hd))
        | error er =>
            rw [hr] at h
            cases hl : a.line_by_line with
            | ok d =>
                rw [hl] at h
                have hd : d = df := Option.some.inj h
                exact Or.inr (Or.inr (Or.inl (congrArg Except.ok hd)))
            | error el =>
                rw [hl] at h
                refine Or.inr (Or.inr (Or.inr ?_))
                rcases List.exists_of_findSome?_eq_some h with ⟨enc, henc, hval⟩
                refine ⟨enc, henc, ?_⟩
                cases he : a.by_encoding enc with
                | ok d =>
                    rw [he] at hval
                    have hd : d = df := Option.some.inj hval
                    exact congrArg Except.ok hd
                | error ee =>
                    rw [he] at hval
                    exact absurd hval (by simp)

/-- C5 witness: the amended theorem applied at `c5Attempts`, whose basic
strategy succeeds. -/
theorem c5_first_non_raising_strategy_wins_witness :
    read_csv_robust c5Attempts = some emptyDf :=
  (c5_first_non_raising_strategy_wins c5Attempts).1 emptyDf rfl

/-! ## C4 -/

/-- C4 counterexample: at the concrete environment of a non-existing file
path, the entry point takes the sample fallback `_load_sample_data`, whose
body is `pass`, and returns Python `None` — no structured status record at
all — contradicting "must … still return a structured result rather than
an error or nothing". -/
theorem c4_counterexample :
    load_csv_data missingFileState (Session.fresh emptyDB) =
      (none, Session.fresh emptyDB) := rfl

/-- C4 (amended): `load_csv_data` never lets an exception propagate — every
exception raised in the body is caught by the `except Exception` handler
and turned into an error result with the session rolled back — and
whenever the file exists it returns a structured status record; when the
file does not exist it returns the value of the sample-data fallback,
which is `None` (no structured result), not an error. -/
theorem c4_structured_result_iff_file_exists (fs : FileState) (s : Session) :
    (∀ e s1, load_csv_body fs s = .error (e, s1) →
      load_csv_data fs s = (some (.error e.str), s1.rollback)) ∧
    (fs.file_exists = true → ∃ r, (load_csv_data fs s).1 = some r) ∧
    (fs.file_exists = false → (load_csv_data fs s).1 = none) := by
  refine ⟨?_, ?_, ?_⟩
  · intro e s1 h
    simp [load_csv_data, h]
  · intro hex
    rw [load_csv_data, load_csv_body, hex]
    cases hr : read_csv_robust fs.attempts with
    | none => exact ⟨.error "No se pudo leer el archivo CSV", by simp⟩
    | some df =>
        exact ⟨.error "'CSVLoader' object has no attribute '_clean_existing_data'",
          by simp [clean_existing_data, PyError.str]⟩
  · intro hex
    simp [load_csv_data, load_csv_body, hex, load_sample_data]

/-- C4 witness: the amended theorem applied at an existing-file environment
and at a missing-file environment. -/
theorem c4_structured_result_iff_file_exists_witness :
    (∃ r, (load_csv_data existsFileState (Session.fresh emptyDB)).1 = some r) ∧
    (load_csv_data missingFileState (Session.fresh emptyDB)).1 = none :=
  ⟨(c4_structured_result_iff_file_exists existsFileState (Session.fresh emptyDB)).2.1 rfl,
    (c4_structured_result_iff_file_exists missingFileState (Session.fresh emptyDB)).2.2 rfl⟩

/-! ## C1 -/

/-- C1: whenever the CSV file exists and some read strategy returns a
dataframe, `load_csv_data` reaches the `self._clean_existing_data()` call
of line 35; the method is defined nowhere in the class or module, so
`AttributeError` is raised before `_load_master_data` and
`_load_declarations` run, the catch-all handler rolls the session back and
reports an error result, and nothing is loaded: the persisted store is
exactly the caller's and no staged object survives. -/
theorem c1_missing_clean_method_forces_error (fs : FileState) (s : Session) (df : Df)
    (hex : fs.file_exists = true) (hread : read_csv_robust fs.attempts = some df) :
    load_csv_data fs s =
      (some (.error "'CSVLoader' object has no attribute '_clean_existing_data'"),
        Session.fresh s.db) := by
  simp [load_csv_data, load_csv_body, hex, hread, clean_existing_data, Session.rollback,
    PyError.str]

/-- C1 witness: the theorem applied at the concrete environment
`existsFileState` (file exists, basic strategy returns `emptyDf`). -/
theorem c1_missing_clean_method_forces_error_witness :
    load_csv_data existsFileState (Session.fresh emptyDB) =
      (some (.error "'CSVLoader' object has no attribute '_clean_existing_data'"),
        Session.fresh emptyDB) :=
  c1_missing_clean_method_forces_error existsFileState (Session.fresh emptyDB) emptyDf rfl rfl

/-! ## C2 -/

/-- C2: evaluation at the failing input — a file whose one valid row is
already loaded.  The intended first load of `sampleDf` (master data then
declarations from the empty store) persists one declaration and one
reference entity per category; re-running the actual entry point on the
same file returns status error (the `AttributeError` on the missing
`_clean_existing_data`), stages nothing and reports no duplicate skip —
not the claimed `success` with `recordsLoaded = 0`.  (The success branch,
line 44, would in any case report `len(df)` — the total row count — and
`_load_declarations` has no skip counter at all.) -/
theorem c2_second_run_is_error_not_success_zero :
    loadedDB.declaraciones.length = 1 ∧
    loadedDB.aduanas.length = 1 ∧
    loadedDB.paises.length = 1 ∧
    loadedDB.tipos_regimen.length = 1 ∧
    loadedDB.unidades_medida.length = 1 ∧
    loadedDB.codigos_sac.length = 1 ∧
    load_csv_data sampleFileState (Session.fresh loadedDB) =
      (some (.error "'CSVLoader' object has no attribute '_clean_existing_data'"),
        Session.fresh loadedDB) := by
  refine ⟨by decide, by decide, by decide, by decide, by decide, by decide, ?_⟩
  exact c1_missing_clean_method_forces_error sampleFileState (Session.fresh loadedDB)
    sampleDf rfl rfl

/-! ## C8 -/

/-- One step of the line loop: the line is always retained (repaired when
its width differs from the header's) and its number recorded exactly when
the width differs. -/
theorem processDataLine_eq (k : Nat) (st : LineReadState) (n : Nat) (row : List String) :
    processDataLine k st n row =
      ⟨st.valid_rows ++ [repairLine k row],
        st.problematic_lines ++ (if row.length = k then [] else [n])⟩ := by
  obtain ⟨v, p⟩ := st
  rw [processDataLine, repairLine]
  by_cases h1 : row.length = k
  · rw [if_pos h1, if_pos h1, if_pos h1]
    simp
  · rw [if_neg h1, if_neg h1, if_neg h1]
    by_cases h2 : row.length > k
    · rw [if_pos h2, if_pos h2]
    · rw [if_neg h2, if_neg h2]

/-- The line loop keeps every data line in order (repaired) and records
exactly the numbers of the width-mismatched lines. -/
theorem lineFold_spec (k : Nat) (rows : List (List String)) :
    ∀ (st : LineReadState) (n : Nat),
      ((rows.enumFrom n).foldl (fun st p => processDataLine k st p.1 p.2) st) =
        ⟨st.valid_rows ++ rows.map (repairLine k),
          st.problematic_lines ++
            ((rows.enumFrom n).filter (fun p => p.2.length != k)).map Prod.fst⟩ := by
  induction rows with
  | nil =>
      intro st n
      obtain ⟨v, p⟩ := st
      simp
  | cons r t ih =>
      intro st n
      rw [List.enumFrom_cons, List.foldl_cons, processDataLine_eq, ih _ (n + 1)]
      by_cases h : r.length = k
      · simp [h, List.filter_cons]
      · simp [h, List.filter_cons]

/-- C8: under the line-repair strategy with a header of `k ≥ 1` fields,
every data line whose field count differs from `k` is retained, never
dropped: a line with more than `k` fields keeps its first `k-1` fields and
gets the excess trailing fields re-joined with the delimiter as its `k`-th
field; a line with fewer is padded with `k-n` empty trailing fields; and
the number of every such line is recorded in `problematic_lines`. -/
theorem c8_line_repair (headers : List String) (rest : List (List String))
    (hk : 1 ≤ headers.length) :
    ((read_csv_line_by_line (headers :: rest)).1.2 =
      rest.map (repairLine headers.length)) ∧
    ((read_csv_line_by_line (headers :: rest)).2 =
      ((rest.enumFrom 2).filter (fun p => p.2.length != headers.length)).map Prod.fst) ∧
    (∀ row : List String, row.length > headers.length →
      repairLine headers.length row =
        row.take (headers.length - 1) ++
          [joinSemicolon (row.drop (headers.length - 1))]) ∧
    (∀ row : List String, row.length < headers.length →
      repairLine headers.length row =
        row ++ List.replicate (headers.length - row.length) "") ∧
    ((read_csv_line_by_line (headers :: rest)).1.2.length = rest.length) := by
  have hcast : ((headers.length : Int) - 1).toNat = headers.length - 1 := by omega
  have hnneg : (0 : Int) ≤ (headers.length : Int) - 1 := by omega
  refine ⟨?_, ?_, ?_, ?_, ?_⟩
  · show ((rest.enumFrom 2).foldl
        (fun st p => processDataLine headers.length st p.1 p.2) ⟨[], []⟩).valid_rows = _
    rw [lineFold_spec]
    simp
  · show ((rest.enumFrom 2).foldl
        (fun st p => processDataLine headers.length st p.1 p.2) ⟨[], []⟩).problematic_lines = _
    rw [lineFold_spec]
    simp
  · intro row h
    rw [repairLine, if_neg (by omega), if_pos h, pySliceTo, pySliceFrom,
      if_pos hnneg, if_pos hnneg, hcast]
  · intro row h
    rw [repairLine, if_neg (by omega), if_neg (by omega)]
  · show ((rest.enumFrom 2).foldl
        (fun st p => processDataLine headers.length st p.1 p.2) ⟨[], []⟩).valid_rows.length = _
    rw [lineFold_spec]
    simp

/-- C8 witness: the theorem applied at the concrete header `["h1", "h2"]`
(width 2) and the data lines `["a", "b", "c"]` (too wide: merged to
`["a", "b;c"]`, line 2 recorded) and `["a"]` (too narrow: padded to
`["a", ""]`, line 3 recorded). -/
theorem c8_line_repair_witness :
    (read_csv_line_by_line [["h1", "h2"], ["a", "b", "c"], ["a"]]).1.2 =
      [["a", "b;c"], ["a", ""]] ∧
    (read_csv_line_by_line [["h1", "h2"], ["a", "b", "c"], ["a"]]).2 = [2, 3] := by
  have h := c8_line_repair ["h1", "h2"] [["a", "b", "c"], ["a"]] (by decide)
  exact ⟨by rw [h.1]; decide, by rw [h.2.1]; decide⟩

/-! ## C3 -/

/-- One iteration of the declaration row loop never touches the persisted
store and either stages nothing or stages exactly one record whose natural
key is the row's key and is absent from the persisted fact table (the only
table the duplicate check can see under `autoflush=False`). -/
theorem processDeclRow_spec (cols : List String) (acc : Session × Nat × Nat) (row : Row) :
    (processDeclRow cols acc row).1.db = acc.1.db ∧
    ((processDeclRow cols acc row).1.new_declaraciones = acc.1.new_declaraciones ∨
      ∃ d, (processDeclRow cols acc row).1.new_declaraciones =
          acc.1.new_declaraciones ++ [d] ∧
        declKey d = rowKey acc.1.db row ∧
        ∀ d0 ∈ acc.1.db.declaraciones, declKey d0 ≠ declKey d) := by
  rw [processDeclRow]
  split
  · exact ⟨rfl, Or.inl rfl⟩
  · split
    · rename_i aduana pais regimen unidad sac ha hp hr hu hs
      split
      · exact ⟨rfl, Or.inl rfl⟩
      · rename_i fecha hfecha
        split
        · exact ⟨rfl, Or.inl rfl⟩
        · rename_i hnone
          refine ⟨rfl, Or.inr ⟨_, rfl, ?_, ?_⟩⟩
          · simp [declKey, rowKey, hs]
          · intro d0 hd0 hkey
            rw [findExistingDecl, List.find?_eq_none] at hnone
            apply hnone d0 hd0
            simp only [declKey, Prod.mk.injEq] at hkey
            obtain ⟨h1, h2, h3⟩ := hkey
            simp [h1, h2, h3]
    · exact ⟨rfl, Or.inl rfl⟩

/-- The declaration row loop leaves the persisted store unchanged and
appends a staged list whose keys form a sublist of the rows' keys and avoid
every key already persisted. -/
theorem declFold_spec (cols : List String) (rows : List Row) :
    ∀ acc : Session × Nat × Nat,
      (rows.foldl (fun a row => processDeclRow cols a row) acc).1.db = acc.1.db ∧
      ∃ staged,
        (rows.foldl (fun a row => processDeclRow cols a row) acc).1.new_declaraciones =
          acc.1.new_declaraciones ++ staged ∧
        (staged.map declKey).Sublist (rows.map (rowKey acc.1.db)) ∧
        ∀ d ∈ staged, ∀ d0 ∈ acc.1.db.declaraciones, declKey d0 ≠ declKey d := by
  induction rows with
  | nil =>
      intro acc
      exact ⟨rfl, [], by simp, by simp, by simp⟩
  | cons r t ih =>
      intro acc
      rw [List.foldl_cons]
      obtain ⟨hdb, hstep⟩ := processDeclRow_spec cols acc r
      obtain ⟨hdb', staged', hnew', hsub', hdisj'⟩ := ih (processDeclRow cols acc r)
      rw [hdb] at hsub' hdisj'
      refine ⟨hdb'.trans hdb, ?_⟩
      rcases hstep with hsame | ⟨d, hd, hdk, hdnotin⟩
      · refine ⟨staged', ?_, ?_, ?_⟩
        · rw [hnew', hsame]
        · rw [List.map_cons]
          exact hsub'.cons _
        · exact hdisj'
      · refine ⟨d :: staged', ?_, ?_, ?_⟩
        · rw [hnew', hd, List.append_assoc]
          rfl
        · rw [List.map_cons, List.map_cons, ← hdk]
          exact hsub'.cons₂ _
        · intro x hx d0 hd0
          rcases List.mem_cons.mp hx with rfl | hx'
          · exact hdnotin d0 hd0
          · exact hdisj' x hx' d0 hd0

/-- C3 counterexample: one load of a file containing the same valid row
twice stages and commits two declarations with the same natural key
(correlativo "COR001", SAC id 1, descripcion "Mercancia general"): because
`SessionLocal` has `autoflush=False`, the duplicate query of lines 285-289
sees only persisted records, never the record staged for the first copy of
the row. -/
theorem c3_counterexample :
    (loadedTwiceDB.declaraciones.filter (fun d =>
      d.correlativo == some "COR001" && d.codigo_sac_id == 1 &&
        d.descripcion == some "Mercancia general")).length = 2 := by decide

/-- C3 (amended): the duplicate check consults only already-persisted
records — with `autoflush=False`, records staged earlier in the same load
are invisible to it — so two rows with the same natural key in one file
both stage; the at-most-one-record-per-tuple invariant is preserved only
across loads: it holds after the pass provided it held before and the
file's rows carry pairwise distinct natural keys. -/
theorem c3_unique_only_across_loads (df : Df) (db : DB)
    (hdb : (db.declaraciones.map declKey).Nodup)
    (hrows : (df.rows.map (rowKey db)).Nodup) :
    ((((load_declarations df (Session.fresh db)).1).db.declaraciones).map declKey).Nodup := by
  obtain ⟨hdbeq, staged, hnew, hsub, hdisj⟩ :=
    declFold_spec df.columns df.rows (Session.fresh db, 0, 0)
  rw [load_declarations]
  show (((df.rows.foldl (fun a row => processDeclRow df.columns a row)
      (Session.fresh db, 0, 0)).1.commit).db.declaraciones.map declKey).Nodup
  have hc : ((df.rows.foldl (fun a row => processDeclRow df.columns a row)
      (Session.fresh db, 0, 0)).1.commit).db.declaraciones = db.declaraciones ++ staged := by
    rw [Session.commit]
    show (df.rows.foldl (fun a row => processDeclRow df.columns a row)
        (Session.fresh db, 0, 0)).1.db.declaraciones ++
      (df.rows.foldl (fun a row => processDeclRow df.columns a row)
        (Session.fresh db, 0, 0)).1.new_declaraciones = _
    rw [hdbeq, hnew]
    rfl
  rw [hc, List.map_append, List.nodup_append]
  refine ⟨hdb, List.Nodup.sublist hsub hrows, ?_⟩
  intro a ha hb
  obtain ⟨d0, hd0, rfl⟩ := List.mem_map.mp ha
  obtain ⟨d, hd, heq⟩ := List.mem_map.mp hb
  exact hdisj d hd d0 hd0 heq.symm

/-- C3 witness: the amended theorem applied at `sampleDf` over the
already-loaded store `loadedDB` (one persisted record, distinct row keys),
where the re-load leaves the keys duplicate-free. -/
theorem c3_unique_only_across_loads_witness :
    ((((load_declarations sampleDf (Session.fresh loadedDB)).1).db.declaraciones).map
      declKey).Nodup :=
  c3_unique_only_across_loads sampleDf loadedDB (by decide) (by decide)
